import Mathlib

/-!
Verification development for the video-downloader orchestration script
(`src/video_downloader.py`).  The shallow embedding below translates the
pieces of the program that the claims concern:

* the per-job mutable progress object `DownloadProgress` (class
  `DownloadProgress`, lines 84-116 of the source);
* the line-oriented progress parser of `download_video` (lines 146-188),
  modelled as total Lean functions over `List Char`.  Each of the seven
  compiled regular expressions is translated into an explicit leftmost
  search.  Because every character class appearing in those patterns is
  disjoint from the ones adjacent to it, greedy matching without global
  backtracking is exact; the one place where backtracking matters
  (the optional `[KMGT]` unit and the `\s+`/`.+` boundary of the
  `Destination:` pattern) is handled explicitly.  `\d` and `\s` are
  modelled over ASCII, which covers the byte stream the tool emits;
* the job-runner body of `download_video` (lines 118-206).  The external
  process is modelled by a `LaunchOutcome`: either the `Popen` call raises,
  or it yields a list of output lines together with an exit code.  The
  `float(...)` conversion of the matched percentage token can raise
  `ValueError` exactly when the token is not a valid Python float literal;
  this is modelled by `parsePyFloat` returning `none`, and the exception is
  threaded to the single `try/except` of `download_video`.  The modelled
  exception text omits the quote characters Python puts around the token;
* the command construction and the `subprocess.Popen` call site
  (lines 120-144), as the record `PopenCall`;
* `read_urls_from_file` (lines 58-68) and the no-URLs exit path of `main`
  (lines 321-323), with the filesystem abstracted as an optional list of
  lines.

Python floats are modelled as exact rationals; all values the claims
mention are short decimal fractions, which `ℚ` represents exactly.
-/

/-! ## Character classes and basic string machinery -/

/-- ASCII whitespace, the characters Python `\s` and `str.strip` treat as
space in the output of the external tool. -/
def isSpaceChar (c : Char) : Bool :=
  c = ' ' || c = '\t' || c = '\n' || c = '\r' || c = '\x0b' || c = '\x0c'

/-- The character class `[\d.]` of the percentage/size/speed patterns. -/
def isNumDot (c : Char) : Bool := c.isDigit || c = '.'

/-- The character class `[\d:]` of the ETA pattern. -/
def isDigitColon (c : Char) : Bool := c.isDigit || c = ':'

/-- Python `str.strip()`: remove leading and trailing whitespace. -/
def stripChars (l : List Char) : List Char :=
  ((l.dropWhile isSpaceChar).reverse.dropWhile isSpaceChar).reverse

/-- Match a literal at the head of the text; on success return the rest. -/
def dropLit : List Char → List Char → Option (List Char)
  | [], t => some t
  | _ :: _, [] => none
  | a :: as, b :: bs => if a = b then dropLit as bs else none

/-- Leftmost search: try the position matcher at every suffix, earliest
position first — the semantics of `re.search`. -/
def searchWith {α : Type} (m : List Char → Option α) : List Char → Option α
  | [] => m []
  | c :: cs =>
    match m (c :: cs) with
    | some r => some r
    | none => searchWith m cs

/-- Boolean leftmost search, for the completion pattern. -/
def searchWithB (m : List Char → Bool) : List Char → Bool
  | [] => m []
  | c :: cs => m (c :: cs) || searchWithB m cs

/-- Decidable substring test, used to state that a message contains the
printed exit code. -/
def isPrefixL : List Char → List Char → Bool
  | [], _ => true
  | _ :: _, [] => false
  | a :: as, b :: bs => if a = b then isPrefixL as bs else false

/-- `containsSub needle hay` holds when `needle` occurs contiguously in
`hay`. -/
def containsSub (needle : List Char) : List Char → Bool
  | [] => isPrefixL needle []
  | c :: cs => isPrefixL needle (c :: cs) || containsSub needle cs

/-! ## The seven patterns of `download_video` (source lines 147-153) -/

/-- Position matcher for `\[download\]\s+([\d.]+)%`; returns the captured
token. -/
def matchPercentAt (t : List Char) : Option (List Char) :=
  match dropLit "[download]".data t with
  | none => none
  | some r =>
    if (r.takeWhile isSpaceChar).isEmpty then none
    else
      let r2 := r.dropWhile isSpaceChar
      let num := r2.takeWhile isNumDot
      if num.isEmpty then none
      else
        match r2.dropWhile isNumDot with
        | '%' :: _ => some num
        | _ => none

/-- Position matcher for the shared sub-pattern `[\d.]+\s*[KMGT]?iB`;
returns the matched text and the rest of the input.  The optional unit
letter is greedy, backtracking to empty when `iB` does not follow — since
`K`, `M`, `G`, `T` differ from `i`, that backtrack can only succeed when
the text starts with `iB` directly. -/
def matchSizeToken (t : List Char) : Option (List Char × List Char) :=
  let num := t.takeWhile isNumDot
  if num.isEmpty then none
  else
    let r1 := t.dropWhile isNumDot
    let sp := r1.takeWhile isSpaceChar
    match r1.dropWhile isSpaceChar with
    | 'K' :: 'i' :: 'B' :: rest => some (num ++ sp ++ ['K', 'i', 'B'], rest)
    | 'M' :: 'i' :: 'B' :: rest => some (num ++ sp ++ ['M', 'i', 'B'], rest)
    | 'G' :: 'i' :: 'B' :: rest => some (num ++ sp ++ ['G', 'i', 'B'], rest)
    | 'T' :: 'i' :: 'B' :: rest => some (num ++ sp ++ ['T', 'i', 'B'], rest)
    | 'i' :: 'B' :: rest => some (num ++ sp ++ ['i', 'B'], rest)
    | _ => none

/-- Position matcher for `at\s+([\d.]+\s*[KMGT]?iB/s)`. -/
def matchSpeedAt (t : List Char) : Option (List Char) :=
  match dropLit "at".data t with
  | none => none
  | some r =>
    if (r.takeWhile isSpaceChar).isEmpty then none
    else
      match matchSizeToken (r.dropWhile isSpaceChar) with
      | some (m, '/' :: 's' :: _) => some (m ++ ['/', 's'])
      | _ => none

/-- Position matcher for `ETA\s+([\d:]+)`. -/
def matchEtaAt (t : List Char) : Option (List Char) :=
  match dropLit "ETA".data t with
  | none => none
  | some r =>
    if (r.takeWhile isSpaceChar).isEmpty then none
    else
      let d := (r.dropWhile isSpaceChar).takeWhile isDigitColon
      if d.isEmpty then none else some d

/-- Position matcher for `of\s+([\d.]+\s*[KMGT]?iB)`. -/
def matchSizeAt (t : List Char) : Option (List Char) :=
  match dropLit "of".data t with
  | none => none
  | some r =>
    if (r.takeWhile isSpaceChar).isEmpty then none
    else
      match matchSizeToken (r.dropWhile isSpaceChar) with
      | some (m, _) => some m
      | none => none

/-- Position matcher for `([\d.]+\s*[KMGT]?iB)\s+at`. -/
def matchDownloadedAt (t : List Char) : Option (List Char) :=
  match matchSizeToken t with
  | none => none
  | some (m, rest) =>
    if (rest.takeWhile isSpaceChar).isEmpty then none
    else
      match dropLit "at".data (rest.dropWhile isSpaceChar) with
      | some _ => some m
      | none => none

/-- Position matcher for `Destination:\s+(.+)`.  On input with nothing
after the whitespace run, the greedy `\s+` backtracks by one character so
that `.+` can match it; this can only arise on lines that end in
whitespace, which `strip` has already removed in the caller. -/
def matchFilenameAt (t : List Char) : Option (List Char) :=
  match dropLit "Destination:".data t with
  | none => none
  | some r =>
    let ws := r.takeWhile isSpaceChar
    let rest := r.dropWhile isSpaceChar
    if ws.isEmpty then none
    else if rest.isEmpty then
      if 2 ≤ ws.length then some (ws.drop (ws.length - 1)) else none
    else some rest

/-- Position matcher for `\[download\]\s+100%`. -/
def matchCompleteAt (t : List Char) : Bool :=
  match dropLit "[download]".data t with
  | none => false
  | some r =>
    if (r.takeWhile isSpaceChar).isEmpty then false
    else (dropLit "100%".data (r.dropWhile isSpaceChar)).isSome

/-- `percentage_pattern.search` (source line 147). -/
def searchPercentage (line : List Char) : Option (List Char) :=
  searchWith matchPercentAt line

/-- `speed_pattern.search` (source line 148). -/
def searchSpeed (line : List Char) : Option (List Char) :=
  searchWith matchSpeedAt line

/-- `eta_pattern.search` (source line 149). -/
def searchEta (line : List Char) : Option (List Char) :=
  searchWith matchEtaAt line

/-- `size_pattern.search` (source line 150). -/
def searchSize (line : List Char) : Option (List Char) :=
  searchWith matchSizeAt line

/-- `downloaded_pattern.search` (source line 151). -/
def searchDownloaded (line : List Char) : Option (List Char) :=
  searchWith matchDownloadedAt line

/-- `filename_pattern.search` (source line 152). -/
def searchFilename (line : List Char) : Option (List Char) :=
  searchWith matchFilenameAt line

/-- `complete_pattern.search` (source line 153), as a Boolean. -/
def searchComplete (line : List Char) : Bool :=
  searchWithB matchCompleteAt line

/-! ## Python `float` on a `[\d.]+` token -/

/-- Decimal value of a digit string. -/
def digitsVal (l : List Char) : Nat :=
  l.foldl (fun a c => a * 10 + (c.toNat - 48)) 0

/-- A token drawn from `[\d.]+` is accepted by Python `float` exactly when
it has at most one dot and at least one digit (`"45.2"`, `"100"`, `".5"`,
`"1."` succeed; `"."`, `"1.2.3"` raise `ValueError`). -/
def isValidPyFloat (s : List Char) : Bool :=
  s.count '.' ≤ 1 && s.any Char.isDigit

/-- The exact value `m / 10 ^ k` of a decimal token with `k` digits after
the dot. -/
def decimalVal (m k : Nat) : ℚ := (m : ℚ) / (10 : ℚ) ^ k

/-- `float(token)` for a token matched by `[\d.]+`, as an exact rational;
`none` models the `ValueError`.  The digits before and after the dot are
concatenated, so the value is `digits / 10 ^ fractionLength`. -/
def parsePyFloat (s : List Char) : Option ℚ :=
  if isValidPyFloat s then
    let a := s.takeWhile (fun c => c ≠ '.')
    let b := (s.dropWhile (fun c => c ≠ '.')).drop 1
    some (decimalVal (digitsVal (a ++ b)) b.length)
  else none

/-! ## The progress object (source lines 84-116) -/

/-- The `DownloadProgress` class: one mutable record per task. -/
structure DownloadProgress where
  url : String
  index : Nat
  total : Nat
  percentage : ℚ
  speed : String
  eta : String
  size : String
  downloaded : String
  filename : String
  completed : Bool
  error : Option String
  deriving DecidableEq, Repr

/-- `DownloadProgress.__init__` (source lines 86-97). -/
def DownloadProgress.init (url : String) (index total : Nat) : DownloadProgress :=
  { url := url, index := index, total := total, percentage := 0,
    speed := "0B/s", eta := "00:00", size := "Unknown", downloaded := "0B",
    filename := "Unknown", completed := false, error := none }

/-- `DownloadProgress.set_completed` (source lines 110-113). -/
def DownloadProgress.set_completed (p : DownloadProgress) : DownloadProgress :=
  { p with completed := true, percentage := 100, downloaded := p.size }

/-- `DownloadProgress.set_error` (source lines 115-116). -/
def DownloadProgress.set_error (p : DownloadProgress) (e : String) : DownloadProgress :=
  { p with error := some e }

/-- The spec state `Running`: neither terminal flag set. -/
def DownloadProgress.isRunning (p : DownloadProgress) : Bool :=
  !p.completed && !p.error.isSome

/-- The spec state `Completed`: the `completed` flag. -/
def DownloadProgress.isCompleted (p : DownloadProgress) : Bool :=
  p.completed

/-- The spec state `Failed`: an error message is recorded. -/
def DownloadProgress.isFailed (p : DownloadProgress) : Bool :=
  p.error.isSome

/-! ## Per-line processing (source lines 155-188) -/

/-- Lines 160-162: the `Destination:` check and filename update. -/
def applyFilename (p : DownloadProgress) (line : List Char) : DownloadProgress :=
  match searchFilename line with
  | some f => { p with filename := String.mk f }
  | none => p

/-- Lines 170-172: the size update inside the percentage branch. -/
def applySize (p : DownloadProgress) (line : List Char) : DownloadProgress :=
  match searchSize line with
  | some s => { p with size := String.mk s }
  | none => p

/-- Lines 174-176: the speed update inside the percentage branch. -/
def applySpeed (p : DownloadProgress) (line : List Char) : DownloadProgress :=
  match searchSpeed line with
  | some s => { p with speed := String.mk s }
  | none => p

/-- Lines 178-180: the ETA update inside the percentage branch. -/
def applyEta (p : DownloadProgress) (line : List Char) : DownloadProgress :=
  match searchEta line with
  | some s => { p with eta := String.mk s }
  | none => p

/-- Lines 182-184: the downloaded-amount update inside the percentage
branch. -/
def applyDownloaded (p : DownloadProgress) (line : List Char) : DownloadProgress :=
  match searchDownloaded line with
  | some s => { p with downloaded := String.mk s }
  | none => p

/-- Lines 165-184: the percentage check; on a match, `float` conversion
(whose `ValueError` is returned as `some msg`), then size, speed, ETA and
downloaded updates, in source order. -/
def applyPercentBlock (p : DownloadProgress) (line : List Char) :
    DownloadProgress × Option String :=
  match searchPercentage line with
  | none => (p, none)
  | some t =>
    match parsePyFloat t with
    | none => (p, some ("could not convert string to float: " ++ String.mk t))
    | some v =>
      (applyDownloaded
        (applyEta (applySpeed (applySize { p with percentage := v } line) line) line)
        line, none)

/-- Lines 187-188: the completion check. -/
def applyComplete (p : DownloadProgress) (line : List Char) : DownloadProgress :=
  if searchComplete line then p.set_completed else p

/-- One iteration of the `for line in process.stdout` loop (lines 155-188):
strip the line, update the filename, run the percentage block, then the
completion check.  A `ValueError` from `float` aborts the iteration after
the filename update and is returned as `some msg`. -/
def processLine (p : DownloadProgress) (raw : List Char) :
    DownloadProgress × Option String :=
  match applyPercentBlock (applyFilename p (stripChars raw)) (stripChars raw) with
  | (q, some e) => (q, some e)
  | (q, none) => (applyComplete q (stripChars raw), none)

/-- The whole output loop: process lines in order, stopping at the first
raised exception (which the caller's `except` will receive). -/
def runLines (p : DownloadProgress) : List (List Char) → DownloadProgress × Option String
  | [] => (p, none)
  | l :: ls =>
    match processLine p l with
    | (q, some e) => (q, some e)
    | (q, none) => runLines q ls

/-! ## The external invocation (source lines 120-144) -/

/-- The argument list built at lines 120-140: interpreter, module flags,
output template, optional quality sort, optional audio extraction, fixed
flags, then the URL last. -/
def build_command (exe url output_template quality : String)
    (extract_audio : Bool) : List String :=
  [exe, "-m", "yt_dlp", "--newline", "-o", output_template, "--no-warnings"]
    ++ (if quality ≠ "best" then ["-S", "res:" ++ quality ++ ",ext:mp4:m4a"] else [])
    ++ (if extract_audio then ["-x", "--audio-format", "mp3"] else [])
    ++ ["--add-metadata", "--no-overwrites", "--continue",
        "--restrict-filenames", url]

/-- The `subprocess.Popen` call site, keeping the keyword arguments the
claims are about. -/
structure PopenCall where
  args : List String
  stderrToStdout : Bool
  shell : Bool
  deriving DecidableEq, Repr

/-- The call at lines 143-144: `Popen(command, stdout=PIPE,
stderr=STDOUT, universal_newlines=True, bufsize=1, shell=True)`. -/
def download_popen_call (exe url output_template quality : String)
    (extract_audio : Bool) : PopenCall :=
  { args := build_command exe url output_template quality extract_audio,
    stderrToStdout := true,
    shell := true }

/-! ## The job runner (source lines 142-206) -/

/-- Behaviour of the external process for one invocation: either the
`Popen` call raises, or the process produces a stream of lines and an exit
code. -/
inductive LaunchOutcome
  | exn (msg : String)
  | ok (lines : List (List Char)) (exitCode : Int)

/-- `download_video` (source lines 118-206), as a total function from the
process behaviour to the final progress record and the returned
`(url, success, message)` triple.  The single `try/except` converts any
exception from launching or streaming into `set_error` plus a failure
triple. -/
def download_video (url : String) (launch : LaunchOutcome)
    (p : DownloadProgress) : DownloadProgress × String × Bool × String :=
  match launch with
  | .exn e =>
    let msg := "Exception for " ++ url ++ ": " ++ e
    (p.set_error msg, url, false, msg)
  | .ok lines code =>
    match runLines p lines with
    | (q, some e) =>
      let msg := "Exception for " ++ url ++ ": " ++ e
      (q.set_error msg, url, false, msg)
    | (q, none) =>
      if code = 0 then
        (if q.completed then q else q.set_completed, url, true, "Download completed")
      else
        let msg := "FAILED: " ++ url ++ " - yt-dlp returned code " ++ toString code
        (q.set_error msg, url, false, msg)

/-! ## URL-file reading and the no-URLs exit (source lines 58-68, 311-323) -/

/-- `read_urls_from_file` (lines 58-68), with the filesystem abstracted:
`none` models a missing file (the `FileNotFoundError` branch prints an
error, returns the empty accumulator).  The Boolean reports whether the
error message was printed.  Present files yield their stripped, nonblank,
non-comment lines. -/
def read_urls_from_file (file : Option (List String)) : List String × Bool :=
  match file with
  | none => ([], true)
  | some lines =>
    (lines.filterMap (fun l =>
      let s := stripChars l.data
      if s.isEmpty then none
      else if s.head? = some '#' then none
      else some (String.mk s)), false)

/-- Lines 313-314 and 321-323 of `main`: obtain the URLs from the text
file, then `sys.exit(1)` when the list is empty; `none` means execution
continues past this point. -/
def main_exit_after_reading_file (file : Option (List String)) : Option Nat :=
  if (read_urls_from_file file).1.isEmpty then some 1 else none

/-! ## Structural lemmas about the per-line updates

None of the field updates of the parsing loop touches the `completed` or
`error` flags: `completed` is set only by `set_completed` (which never
unsets it) and `error` only by `set_error`, which `download_video` calls
after the loop. -/

theorem applyFilename_completed (p : DownloadProgress) (l : List Char) :
    (applyFilename p l).completed = p.completed := by
  unfold applyFilename; split <;> rfl

theorem applyFilename_error (p : DownloadProgress) (l : List Char) :
    (applyFilename p l).error = p.error := by
  unfold applyFilename; split <;> rfl

theorem applyPercentBlock_completed (p : DownloadProgress) (l : List Char) :
    (applyPercentBlock p l).1.completed = p.completed := by
  unfold applyPercentBlock applyDownloaded applyEta applySpeed applySize
  split
  · rfl
  · split
    · rfl
    · split <;> split <;> split <;> split <;> rfl

theorem applyPercentBlock_error (p : DownloadProgress) (l : List Char) :
    (applyPercentBlock p l).1.error = p.error := by
  unfold applyPercentBlock applyDownloaded applyEta applySpeed applySize
  split
  · rfl
  · split
    · rfl
    · split <;> split <;> split <;> split <;> rfl

theorem applyComplete_completed_mono (p : DownloadProgress) (l : List Char)
    (h : p.completed = true) : (applyComplete p l).completed = true := by
  unfold applyComplete
  split
  · rfl
  · exact h

theorem applyComplete_error (p : DownloadProgress) (l : List Char) :
    (applyComplete p l).error = p.error := by
  unfold applyComplete; split <;> rfl

theorem processLine_error (p : DownloadProgress) (raw : List Char) :
    (processLine p raw).1.error = p.error := by
  unfold processLine
  rcases h : applyPercentBlock (applyFilename p (stripChars raw)) (stripChars raw)
    with ⟨q, e⟩
  have hq : q.error = p.error := by
    have h1 := congrArg (fun x => x.1.error) h
    simp only at h1
    rw [applyPercentBlock_error, applyFilename_error] at h1
    exact h1.symm
  cases e with
  | none => simpa [applyComplete_error] using hq
  | some e0 => simpa using hq

theorem processLine_completed_mono (p : DownloadProgress) (raw : List Char)
    (hc : p.completed = true) : (processLine p raw).1.completed = true := by
  unfold processLine
  rcases h : applyPercentBlock (applyFilename p (stripChars raw)) (stripChars raw)
    with ⟨q, e⟩
  have hq : q.completed = true := by
    have h1 := congrArg (fun x => x.1.completed) h
    simp only at h1
    rw [applyPercentBlock_completed, applyFilename_completed, hc] at h1
    exact h1.symm
  cases e with
  | none => simpa using applyComplete_completed_mono q (stripChars raw) hq
  | some e0 => simpa using hq

theorem runLines_error (p : DownloadProgress) (ls : List (List Char)) :
    (runLines p ls).1.error = p.error := by
  induction ls generalizing p with
  | nil => rfl
  | cons l ls ih =>
    unfold runLines
    rcases h : processLine p l with ⟨q, e⟩
    have hq : q.error = p.error := by
      have h1 := congrArg (fun x => x.1.error) h
      simp only at h1
      rw [processLine_error] at h1
      exact h1.symm
    cases e with
    | none => simpa [ih q] using hq
    | some e0 => simpa using hq

theorem runLines_completed_mono (p : DownloadProgress) (ls : List (List Char))
    (hc : p.completed = true) : (runLines p ls).1.completed = true := by
  induction ls generalizing p with
  | nil => exact hc
  | cons l ls ih =>
    unfold runLines
    rcases h : processLine p l with ⟨q, e⟩
    have hq : q.completed = true := by
      have h1 := congrArg (fun x => x.1.completed) h
      simp only at h1
      rw [processLine_completed_mono p l hc] at h1
      exact h1.symm
    cases e with
    | none => simpa using ih q hq
    | some e0 => simpa using hq

/-! ## Substring lemmas for the exit-code message -/

theorem isPrefixL_self (l : List Char) : isPrefixL l l = true := by
  induction l with
  | nil => rfl
  | cons a as ih => simp [isPrefixL, ih]

theorem containsSub_append (n pre : List Char) : containsSub n (pre ++ n) = true := by
  induction pre with
  | nil =>
    cases n with
    | nil => rfl
    | cons c cs => simp [containsSub, isPrefixL_self]
  | cons d pre ih =>
    simp [containsSub, ih]

theorem strData_append (a b : String) : (a ++ b).data = a.data ++ b.data := by
  cases a; cases b; rfl

/-! ## Claims -/

/-- C1: the claim says every task launches the external download process by
direct argument-vector invocation with no shell intermediary.  The code
builds the argument vector, but the `Popen` call at source line 144 passes
`shell=True`, so the invocation goes through a shell intermediary; this
theorem evaluates the modelled call site at a concrete task and exhibits
the `shell` flag (together with the argument vector and the merged
stderr). -/
theorem C1_popen_shell_flag :
    (download_popen_call "python3" "https://example.com/v" "downloads/video.mp4"
        "best" false).shell = true
    ∧ (download_popen_call "python3" "https://example.com/v" "downloads/video.mp4"
        "best" false).stderrToStdout = true
    ∧ (download_popen_call "python3" "https://example.com/v" "downloads/video.mp4"
        "best" false).args
      = ["python3", "-m", "yt_dlp", "--newline", "-o", "downloads/video.mp4",
         "--no-warnings", "--add-metadata", "--no-overwrites", "--continue",
         "--restrict-filenames", "https://example.com/v"] :=
  ⟨rfl, rfl, by decide⟩

/-- C2 counterexample: the claim says processing a line never raises.  The
line `"[download] .%"` matches the percentage pattern with token `"."`,
and `float(".")` raises `ValueError`; the model returns the exception. -/
theorem C2_garbled_percent_raises :
    (processLine (DownloadProgress.init "u" 1 1) "[download] .%".data).2
      = some "could not convert string to float: ." := by decide

/-- C2 as amended: processing a line raises only when the matched
percentage token is not a valid float; a line matching none of the
patterns leaves the record unchanged and is not an error. -/
theorem C2_amended_tolerance (p : DownloadProgress) (raw : List Char) :
    ((processLine p raw).2 ≠ none →
      ∃ cap, searchPercentage (stripChars raw) = some cap
        ∧ isValidPyFloat cap = false)
    ∧ (searchFilename (stripChars raw) = none →
       searchPercentage (stripChars raw) = none →
       searchComplete (stripChars raw) = false →
       processLine p raw = (p, none)) := by
  constructor
  · intro hne
    unfold processLine at hne
    rcases h : applyPercentBlock (applyFilename p (stripChars raw)) (stripChars raw)
      with ⟨q, e⟩
    rw [h] at hne
    cases e with
    | none => simp at hne
    | some e0 =>
      unfold applyPercentBlock at h
      cases hsp : searchPercentage (stripChars raw) with
      | none => simp only [hsp] at h; simp at h
      | some t =>
        simp only [hsp] at h
        cases hpf : parsePyFloat t with
        | some v => simp only [hpf] at h; simp at h
        | none =>
          refine ⟨t, rfl, ?_⟩
          unfold parsePyFloat at hpf
          by_cases hb : isValidPyFloat t = true
          · rw [if_pos hb] at hpf; simp at hpf
          · simpa using hb
  · intro h1 h2 h3
    simp [processLine, applyFilename, applyPercentBlock, applyComplete, h1, h2, h3]

/-- C2 witness: a concrete garbled percentage token that raises, and a
concrete inert line that leaves the record unchanged. -/
theorem C2_amended_tolerance_witness :
    (∃ cap, searchPercentage (stripChars "[download] .%".data) = some cap
        ∧ isValidPyFloat cap = false)
    ∧ processLine (DownloadProgress.init "u" 1 1) "hello world".data
        = (DownloadProgress.init "u" 1 1, none) :=
  ⟨(C2_amended_tolerance (DownloadProgress.init "u" 1 1) "[download] .%".data).1
      (by decide),
   (C2_amended_tolerance (DownloadProgress.init "u" 1 1) "hello world".data).2
      (by decide) (by decide) (by decide)⟩

/-- C3 counterexample: the claim says a record is never simultaneously
Completed and Failed.  A task whose output contains a `100%` line and
whose process then exits with code 1 ends with both `completed = true`
and an error message recorded. -/
theorem C3_completed_and_failed_simultaneously :
    (download_video "u" (.ok ["[download] 100%".data] 1)
        (DownloadProgress.init "u" 1 1)).1.isCompleted = true
    ∧ (download_video "u" (.ok ["[download] 100%".data] 1)
        (DownloadProgress.init "u" 1 1)).1.isFailed = true :=
  ⟨by decide, by decide⟩

/-- C3 as amended: the record starts at Running; the `completed` flag is
monotone (never reverts) and line processing never touches the error
field, and the job runner never clears either flag — but Completed and
Failed are not mutually exclusive. -/
theorem C3_amended_state_flags (url : String) (i t : Nat)
    (p : DownloadProgress) (raw : List Char) (u2 : String)
    (launch : LaunchOutcome) :
    (DownloadProgress.init url i t).isRunning = true
    ∧ (processLine p raw).1.error = p.error
    ∧ (p.completed = true → (processLine p raw).1.completed = true)
    ∧ (p.completed = true → (download_video u2 launch p).1.completed = true)
    ∧ (p.error.isSome = true → (download_video u2 launch p).1.error.isSome = true) := by
  refine ⟨rfl, processLine_error p raw, processLine_completed_mono p raw, ?_, ?_⟩
  · intro hc
    cases launch with
    | exn e => simpa [download_video, DownloadProgress.set_error] using hc
    | ok lines code =>
      unfold download_video
      dsimp only
      rcases h : runLines p lines with ⟨q, e⟩
      have hq : q.completed = true := by
        have h1 := congrArg (fun x => x.1.completed) h
        simp only at h1
        rw [runLines_completed_mono p lines hc] at h1
        exact h1.symm
      cases e with
      | some e0 => simpa [DownloadProgress.set_error] using hq
      | none =>
        by_cases h0 : code = 0
        · simp [h0, hq]
        · simp [h0, DownloadProgress.set_error, hq]
  · intro he
    cases launch with
    | exn e => simp [download_video, DownloadProgress.set_error]
    | ok lines code =>
      unfold download_video
      dsimp only
      rcases h : runLines p lines with ⟨q, e⟩
      have hq : q.error = p.error := by
        have h1 := congrArg (fun x => x.1.error) h
        simp only at h1
        rw [runLines_error] at h1
        exact h1.symm
      cases e with
      | some e0 => simp [DownloadProgress.set_error]
      | none =>
        by_cases h0 : code = 0
        · by_cases hqc : q.completed = true
          · simp [h0, hqc, hq, he]
          · simp [h0, hqc, DownloadProgress.set_completed, hq, he]
        · simp [h0, DownloadProgress.set_error]

/-- C3 witness: concrete instances of each flag property. -/
theorem C3_amended_state_flags_witness :
    (DownloadProgress.init "u" 1 2).isRunning = true
    ∧ (processLine ((DownloadProgress.init "u" 1 2).set_completed)
        "x".data).1.completed = true
    ∧ (download_video "u" (.ok [] 0)
        ((DownloadProgress.init "u" 1 2).set_completed)).1.completed = true
    ∧ (download_video "u" (.ok [] 3)
        ((DownloadProgress.init "u" 1 2).set_error "boom")).1.error.isSome = true := by
  have h1 := C3_amended_state_flags "u" 1 2
    ((DownloadProgress.init "u" 1 2).set_completed) "x".data "u" (.ok [] 0)
  have h2 := C3_amended_state_flags "u" 1 2
    ((DownloadProgress.init "u" 1 2).set_error "boom") "x".data "u" (.ok [] 3)
  exact ⟨h1.1, h1.2.2.1 (by decide), h1.2.2.2.1 (by decide),
    h2.2.2.2.2 (by decide)⟩

/-- C4 counterexample: the claim says a Completed record keeps
`downloaded = size` and `percentage = 100` at every later point.  After a
`100%` line for a first file, a later progress line rewrites the
percentage and the size while `completed` stays true, so both equalities
are broken in the final record even though the process exits 0. -/
theorem C4_completed_percentage_later_changes :
    (download_video "u"
        (.ok ["[download] 100% of 10.00MiB".data,
              "[download]  45.2% of 120.00MiB".data] 0)
        (DownloadProgress.init "u" 1 1)).1.completed = true
    ∧ (download_video "u"
        (.ok ["[download] 100% of 10.00MiB".data,
              "[download]  45.2% of 120.00MiB".data] 0)
        (DownloadProgress.init "u" 1 1)).1.percentage ≠ 100
    ∧ (download_video "u"
        (.ok ["[download] 100% of 10.00MiB".data,
              "[download]  45.2% of 120.00MiB".data] 0)
        (DownloadProgress.init "u" 1 1)).1.downloaded
      ≠ (download_video "u"
        (.ok ["[download] 100% of 10.00MiB".data,
              "[download]  45.2% of 120.00MiB".data] 0)
        (DownloadProgress.init "u" 1 1)).1.size := by
  refine ⟨by decide, ?_, by decide⟩
  have h : (download_video "u"
      (.ok ["[download] 100% of 10.00MiB".data,
            "[download]  45.2% of 120.00MiB".data] 0)
      (DownloadProgress.init "u" 1 1)).1.percentage = decimalVal 452 1 := rfl
  rw [h]
  norm_num [decimalVal]

/-- C4 as amended: at the moment `set_completed` runs, the downloaded text
equals the size text and the percentage equals 100 (and the flag is set);
later output lines may overwrite these fields while `completed` stays
true. -/
theorem C4_amended_set_completed_invariant (p : DownloadProgress) :
    p.set_completed.downloaded = p.set_completed.size
    ∧ p.set_completed.percentage = 100
    ∧ p.set_completed.completed = true :=
  ⟨rfl, rfl, rfl⟩

/-- C5 counterexample: the claim says the scenario line leaves the
downloaded amount unchanged from its prior value.  Processing it against
the freshly initialised record (downloaded `"0B"`) overwrites the
downloaded amount with `"120.00MiB"`, because `"120.00MiB at"` also
matches the downloaded pattern `([\d.]+\s*[KMGT]?iB)\s+at`. -/
theorem C5_downloaded_field_also_updated :
    (processLine (DownloadProgress.init "u" 1 1)
        "[download]  45.2% of 120.00MiB at 3.50MiB/s ETA 00:30".data).1.downloaded
      = "120.00MiB"
    ∧ (DownloadProgress.init "u" 1 1).downloaded = "0B"
    ∧ ("120.00MiB" : String) ≠ "0B" :=
  ⟨by decide, rfl, by decide⟩

/-- C5 as amended: against any prior record state, the scenario line sets
percentage to 45.2, size to `"120.00MiB"`, speed to `"3.50MiB/s"`, eta to
`"00:30"`, and also the downloaded amount to `"120.00MiB"`; the filename
and the completion state are unchanged, and no exception is raised. -/
theorem C5_amended_scenario_line (p : DownloadProgress) :
    processLine p "[download]  45.2% of 120.00MiB at 3.50MiB/s ETA 00:30".data
      = ({ p with
            percentage := 45.2,
            size := "120.00MiB",
            speed := "3.50MiB/s",
            eta := "00:30",
            downloaded := "120.00MiB" }, none) := by
  have hv : (45.2 : ℚ) = decimalVal 452 1 := by norm_num [decimalVal]
  rw [hv]
  rfl

/-- C6 counterexample: the claim says a line containing a transfer-rate
token but no percentage token still updates the speed field.  The line
`"downloading at 3.50MiB/s"` contains a token that the speed pattern
matches, yet processing it leaves the speed (and the whole record)
unchanged, because the code only looks for speed inside the
percentage-match branch. -/
theorem C6_speed_needs_percentage :
    searchSpeed (stripChars "downloading at 3.50MiB/s".data)
      = some "3.50MiB/s".data
    ∧ searchPercentage (stripChars "downloading at 3.50MiB/s".data) = none
    ∧ (processLine (DownloadProgress.init "u" 1 1)
        "downloading at 3.50MiB/s".data).1.speed = "0B/s"
    ∧ ("0B/s" : String) ≠ "3.50MiB/s" :=
  ⟨by decide, by decide, by decide, by decide⟩

/-- C6 as amended: the filename and the completion marker are extracted
independently on every line, but speed, ETA, size and downloaded are
extracted only when a percentage token is present on the same line; on a
line with neither a percentage token nor a completion marker, the only
possible update is the filename. -/
theorem C6_amended_gated_extraction (p : DownloadProgress) (raw : List Char)
    (hp : searchPercentage (stripChars raw) = none)
    (hc : searchComplete (stripChars raw) = false) :
    processLine p raw = (applyFilename p (stripChars raw), none) := by
  simp [processLine, applyPercentBlock, applyComplete, hp, hc]

/-- C6 witness: the rate-only line from the counterexample is processed
without any update beyond the (absent) filename. -/
theorem C6_amended_gated_extraction_witness :
    processLine (DownloadProgress.init "u" 1 1) "downloading at 3.50MiB/s".data
      = (applyFilename (DownloadProgress.init "u" 1 1)
          (stripChars "downloading at 3.50MiB/s".data), none) :=
  C6_amended_gated_extraction (DownloadProgress.init "u" 1 1)
    "downloading at 3.50MiB/s".data (by decide) (by decide)

/-- C7 counterexample: the claim says exit code 0 always yields a
Completed record and a success result.  A stream containing the garbled
line `"[download] .%"` raises `ValueError` before the exit code is
consulted, so with exit code 0 the runner still returns a failure and the
record ends Failed, not Completed. -/
theorem C7_exit_zero_failure_on_exception :
    (download_video "u" (.ok ["[download] .%".data] 0)
        (DownloadProgress.init "u" 1 1)).2.2.1 = false
    ∧ (download_video "u" (.ok ["[download] .%".data] 0)
        (DownloadProgress.init "u" 1 1)).1.isCompleted = false
    ∧ (download_video "u" (.ok ["[download] .%".data] 0)
        (DownloadProgress.init "u" 1 1)).1.isFailed = true :=
  ⟨by decide, by decide, by decide⟩

/-- C7 as amended: whenever the output stream is processed without an
exception and the process exits with code 0, the runner leaves the record
Completed (setting the flag itself when no 100% line did), does not touch
the error field, and returns a success result — regardless of whether an
explicit completion line was observed. -/
theorem C7_amended_exit_zero_completed (url : String)
    (lines : List (List Char)) (code : Int) (p : DownloadProgress)
    (hcode : code = 0) (hok : (runLines p lines).2 = none) :
    (download_video url (.ok lines code) p).1.completed = true
    ∧ (download_video url (.ok lines code) p).1.error = p.error
    ∧ (download_video url (.ok lines code) p).2.2.1 = true
    ∧ (download_video url (.ok lines code) p).2.2.2 = "Download completed" := by
  subst hcode
  unfold download_video
  dsimp only
  rcases h : runLines p lines with ⟨q, e⟩
  rw [h] at hok
  simp only at hok
  subst hok
  have hq : q.error = p.error := by
    have h1 := congrArg (fun x => x.1.error) h
    simp only at h1
    rw [runLines_error] at h1
    exact h1.symm
  by_cases hqc : q.completed = true
  · simp [hqc, hq]
  · simp [hqc, DownloadProgress.set_completed, hq]

/-- C7 witness: a stream with a 45.2% line and no completion line, exit
code 0, still ends Completed with a success result. -/
theorem C7_amended_exit_zero_completed_witness :
    (download_video "u" (.ok ["[download]  45.2% of 120.00MiB".data] 0)
        (DownloadProgress.init "u" 1 1)).1.completed = true
    ∧ (download_video "u" (.ok ["[download]  45.2% of 120.00MiB".data] 0)
        (DownloadProgress.init "u" 1 1)).1.error = (DownloadProgress.init "u" 1 1).error
    ∧ (download_video "u" (.ok ["[download]  45.2% of 120.00MiB".data] 0)
        (DownloadProgress.init "u" 1 1)).2.2.1 = true
    ∧ (download_video "u" (.ok ["[download]  45.2% of 120.00MiB".data] 0)
        (DownloadProgress.init "u" 1 1)).2.2.2 = "Download completed" :=
  C7_amended_exit_zero_completed "u" ["[download]  45.2% of 120.00MiB".data] 0
    (DownloadProgress.init "u" 1 1) rfl (by decide)

/-- C8 counterexample: the claim says every nonzero exit yields a failure
message that includes the exit code.  With the garbled line
`"[download] .%"` in the stream and exit code 5, the runner returns the
exception message, which does not contain the digit 5 (the record is
still Failed, but the message names no exit code). -/
theorem C8_exception_message_lacks_code :
    (download_video "u" (.ok ["[download] .%".data] 5)
        (DownloadProgress.init "u" 1 1)).2.2.2
      = "Exception for u: could not convert string to float: ."
    ∧ toString (5 : Int) = "5"
    ∧ containsSub "5".data
        ((download_video "u" (.ok ["[download] .%".data] 5)
          (DownloadProgress.init "u" 1 1)).2.2.2).data = false :=
  ⟨by decide, by decide, by decide⟩

/-- C8 as amended: whenever the output stream is processed without an
exception and the process exits with a nonzero code, the runner records a
Failed state whose message names the exit code, and returns a failure
result whose message contains the printed exit code. -/
theorem C8_amended_nonzero_failed (url : String) (lines : List (List Char))
    (code : Int) (p : DownloadProgress) (hcode : code ≠ 0)
    (hok : (runLines p lines).2 = none) :
    (download_video url (.ok lines code) p).1.error
      = some ("FAILED: " ++ url ++ " - yt-dlp returned code " ++ toString code)
    ∧ (download_video url (.ok lines code) p).2.2.1 = false
    ∧ containsSub (toString code).data
        ((download_video url (.ok lines code) p).2.2.2).data = true := by
  unfold download_video
  dsimp only
  rcases h : runLines p lines with ⟨q, e⟩
  rw [h] at hok
  simp only at hok
  subst hok
  refine ⟨by simp [hcode, DownloadProgress.set_error], by simp [hcode], ?_⟩
  dsimp only
  rw [if_neg hcode]
  dsimp only
  rw [strData_append]
  exact containsSub_append _ _

/-- C8 witness: an empty stream with exit code 3 yields the Failed record
and a message containing the printed exit code. -/
theorem C8_amended_nonzero_failed_witness :
    (download_video "u" (.ok [] 3) (DownloadProgress.init "u" 1 1)).1.error
      = some ("FAILED: " ++ "u" ++ " - yt-dlp returned code " ++ toString (3 : Int))
    ∧ (download_video "u" (.ok [] 3) (DownloadProgress.init "u" 1 1)).2.2.1 = false
    ∧ containsSub (toString (3 : Int)).data
        ((download_video "u" (.ok [] 3) (DownloadProgress.init "u" 1 1)).2.2.2).data
      = true :=
  C8_amended_nonzero_failed "u" [] 3 (DownloadProgress.init "u" 1 1)
    (by decide) rfl

/-- C9: any exception while starting or streaming the external process is
caught inside the job runner and converted into a Failed record with a
descriptive message and a `(url, false, message)` return value; the
runner is a total function, so nothing propagates out of it. -/
theorem C9_exceptions_caught (url e : String) (lines : List (List Char))
    (code : Int) (p : DownloadProgress) :
    download_video url (.exn e) p
      = (p.set_error ("Exception for " ++ url ++ ": " ++ e), url, false,
         "Exception for " ++ url ++ ": " ++ e)
    ∧ (∀ e2, (runLines p lines).2 = some e2 →
        download_video url (.ok lines code) p
          = ((runLines p lines).1.set_error ("Exception for " ++ url ++ ": " ++ e2),
             url, false, "Exception for " ++ url ++ ": " ++ e2)) := by
  constructor
  · rfl
  · intro e2 hsome
    unfold download_video
    dsimp only
    rcases h : runLines p lines with ⟨q, e3⟩
    rw [h] at hsome
    simp only at hsome
    subst hsome
    rfl

/-- C9 witness: a stream whose garbled percentage line raises is converted
into the Failed record and failure triple. -/
theorem C9_exceptions_caught_witness :
    download_video "u" (.ok ["[download] .%".data] 0) (DownloadProgress.init "u" 1 1)
      = ((runLines (DownloadProgress.init "u" 1 1) ["[download] .%".data]).1.set_error
          ("Exception for " ++ "u" ++ ": " ++ "could not convert string to float: ."),
         "u", false,
         "Exception for " ++ "u" ++ ": " ++ "could not convert string to float: .") :=
  (C9_exceptions_caught "u" "unused" ["[download] .%".data] 0
      (DownloadProgress.init "u" 1 1)).2
    "could not convert string to float: ." (by decide)

/-- C10: when the URL source is a text file that does not exist, reading
it returns an empty URL list without raising (the error-printed flag is
set), and the program then takes the no-URLs path and exits with status
1. -/
theorem C10_missing_file_empty_urls_exit1 :
    read_urls_from_file none = ([], true)
    ∧ main_exit_after_reading_file none = some 1 :=
  ⟨rfl, rfl⟩
